import Mathlib

/-!
Shallow embedding of the freepik-seedream-mcp server.

Sources embedded here:
* `src/unnamed/part_000` — the Smithery-format MCP server factory: zod argument
  schemas and the tool handlers `seedream_generate`, `seedream_status`,
  `search_resources` built on a `FreepikClient`.
* `src/src/server.ts` (first variant in the file) — the plain HTTP MCP wrapper
  with its inline `seedream_generate` polling loop (45 attempts, 2000 ms wait
  before every status fetch), the API-key guard on `tools/call`, and the
  base64 `config` query-parameter decoding.
* `src/unnamed/part_001` — the reduced HTTP wrapper (no polling) with the same
  API-key guard and `config` decoding.

The `FreepikClient` itself (`src/api/client.ts`) is not among the sources;
where a claim depends on it, the corresponding definition is modelled from the
spec and says so in its doc comment.  External effects (HTTP fetches, JSON
parsing of vendor bodies) are parameters: a vendor "trace" maps the index of a
status check to the decoded body that check returned, and handlers return the
list of vendor operations they perform alongside their response.
-/

namespace FreepikMcp

/-- JavaScript `x || d` on an optional string field: `undefined` and the empty
string are falsy, every other string is truthy. -/
def jsOrStr (o : Option String) (d : String) : String :=
  match o with
  | some s => if s = "" then d else s
  | none => d

/-- JavaScript `x || y` where both operands are optional strings. -/
def jsOrOpt (o b : Option String) : Option String :=
  match o with
  | some s => if s = "" then b else some s
  | none => b

/-- JavaScript `x || d` on an optional numeric field: `undefined` and `0` are
falsy. -/
def jsOrQ (o : Option ℚ) (d : ℚ) : ℚ :=
  match o with
  | some x => if x = 0 then d else x
  | none => d

/-- One character of `JSON.stringify` string escaping. -/
def escChar (c : Char) : String :=
  if c = '"' then "\\\""
  else if c = '\\' then "\\\\"
  else if c = '\n' then "\\n"
  else if c = '\r' then "\\r"
  else if c = '\t' then "\\t"
  else if c = '\x08' then "\\b"
  else if c = '\x0c' then "\\f"
  else if c.toNat < 32 then
    "\\u00" ++ String.singleton (Nat.digitChar (c.toNat / 16))
      ++ String.singleton (Nat.digitChar (c.toNat % 16))
  else String.singleton c

/-- Escape every character of a list, in order. -/
def escapeList : List Char → String
  | [] => ""
  | c :: cs => escChar c ++ escapeList cs

/-- `JSON.stringify` of a string value: quotes around the escaped body. -/
def jsonEscape (s : String) : String :=
  "\"" ++ escapeList s.data ++ "\""

/-- Observable events of a polling loop: a timed wait or the `i`-th status
check (0-based). -/
inductive Ev where
  | wait (ms : Nat)
  | check (attempt : Nat)
  deriving DecidableEq

/-- The event list of a loop that runs `n` wait-then-check iterations starting
at attempt index `i`. -/
def blocksFrom (i : Nat) : Nat → List Ev
  | 0 => []
  | n + 1 => Ev.wait 2000 :: Ev.check i :: blocksFrom (i + 1) n

/-- Number of status checks in an event list. -/
def numChecks : List Ev → Nat
  | [] => 0
  | Ev.check _ :: r => numChecks r + 1
  | _ :: r => numChecks r

/-- Total milliseconds spent waiting in an event list. -/
def evTotalWait : List Ev → Nat
  | [] => 0
  | Ev.wait m :: r => m + evTotalWait r
  | _ :: r => evTotalWait r

/-- One generated asset as the part_000 handlers read it
(`completed.generated[0].url`). -/
structure GeneratedAsset where
  url : String
  deriving DecidableEq

/-- A vendor task as returned by the `FreepikClient` operations used in
part_000: an id, a vendor status string, and the generated assets (empty list
when the vendor sent none). -/
structure TaskResult where
  task_id : String
  status : String
  generated : List GeneratedAsset
  deriving DecidableEq

/-- The two errors the completion poller can raise (spec section 7). -/
inductive WaitErr where
  | generationFailed (msg : String)
  | generationTimeout (task_id : String)
  deriving DecidableEq

/-- A task status that is not terminal for the part_000 client model. -/
abbrev PendingT (t : TaskResult) : Prop :=
  t.status ≠ "COMPLETED" ∧ t.status ≠ "FAILED"

/-- Modelled from the spec: `FreepikClient.waitForCompletion` lives in
`src/api/client.ts`, which is not among the sources.  Per spec section 4.2 it
repeatedly invokes the status check at a fixed 2-second interval for up to
`maxAttempts` attempts (60 by default), returns immediately on status
completed, raises GenerationFailed on status failed, and raises
GenerationTimeout carrying the task id after exhausting the attempts.  The
wait precedes each check, matching the in-repo exemplar loop in
src/src/server.ts.  `trace i` is the decoded body of the `i`-th status check;
the returned event list records the waits and checks performed. -/
def waitAux (tid : String) (trace : Nat → TaskResult) :
    Nat → Nat → List Ev × Except WaitErr TaskResult
  | _, 0 => ([], .error (.generationTimeout tid))
  | i, fuel + 1 =>
    let t := trace i
    if t.status = "COMPLETED" then
      ([Ev.wait 2000, Ev.check i], .ok t)
    else if t.status = "FAILED" then
      ([Ev.wait 2000, Ev.check i],
        .error (.generationFailed ("Generation failed with status " ++ t.status)))
    else
      let r := waitAux tid trace (i + 1) fuel
      (Ev.wait 2000 :: Ev.check i :: r.1, r.2)

/-- Modelled from the spec: entry point of the poller, default 60 attempts. -/
def waitForCompletion (tid : String) (trace : Nat → TaskResult)
    (maxAttempts : Nat := 60) : List Ev × Except WaitErr TaskResult :=
  waitAux tid trace 0 maxAttempts

/-- Message text of a caught poller error, as interpolated by the part_000
handlers (`Error: ${error.message}`).  The exact wording of the timeout
message is modelled from the spec, which only fixes that it carries the
task id. -/
def waitErrMessage : WaitErr → String
  | .generationFailed m => m
  | .generationTimeout tid => "Generation timed out for task " ++ tid

/-- Rendering of `JSON.stringify({task_id, status, message}, null, 2)` used by
the no-wait branch of `seedream_generate` in part_000. -/
def renderNoWait (t : TaskResult) : String :=
  "\x7b\n  \"task_id\": " ++ jsonEscape t.task_id
    ++ ",\n  \"status\": " ++ jsonEscape t.status
    ++ ",\n  \"message\": \"Generation started. Use seedream_status to check progress.\"\n\x7d"

/-- One asset inside `JSON.stringify(task, null, 2)` (depth 2, so inner keys
are indented by 6 spaces). -/
def renderAsset (g : GeneratedAsset) : String :=
  "\x7b\n      \"url\": " ++ jsonEscape g.url ++ "\n    \x7d"

/-- The generated-asset array inside `JSON.stringify(task, null, 2)`. -/
def renderAssets : List GeneratedAsset → String
  | [] => "[]"
  | g :: gs =>
    "[\n    " ++ String.intercalate ",\n    " ((g :: gs).map renderAsset) ++ "\n  ]"

/-- Rendering of `JSON.stringify(task, null, 2)` for a task result, used by the
JSON-dump fallbacks of the part_000 handlers. -/
def renderTaskResult (t : TaskResult) : String :=
  "\x7b\n  \"task_id\": " ++ jsonEscape t.task_id
    ++ ",\n  \"status\": " ++ jsonEscape t.status
    ++ ",\n  \"generated\": " ++ renderAssets t.generated ++ "\n\x7d"

/-- A zod enum field with a default: absent picks the default, present values
must belong to the enumeration. -/
def validateEnum (allowed : List String) (dflt : String) :
    Option String → Except String String
  | none => .ok dflt
  | some s => if allowed.contains s then .ok s else .error "Invalid enum value"

/-- A zod `z.number().min(lo).max(hi).optional().default(dflt)` field. -/
def validateBoundedNumber (lo hi dflt : ℚ) : Option ℚ → Except String ℚ
  | none => .ok dflt
  | some x => if lo ≤ x ∧ x ≤ hi then .ok x else .error "Number out of bounds"

/-- The aspect-ratio enumeration of `seedream_generate` in part_000. -/
def aspectEnum : List String :=
  ["square_1_1", "classic_4_3", "traditional_3_4", "widescreen_16_9",
   "social_story_9_16", "landscape_3_2", "portrait_2_3"]

/-- Raw (pre-validation) arguments of `seedream_generate`. -/
structure GenArgsRaw where
  prompt : Option String
  aspectR : Option String
  guidance : Option ℚ
  wait_for_result : Option Bool
  deriving DecidableEq

/-- Validated arguments of `seedream_generate`. -/
structure GenArgs where
  prompt : String
  aspectR : String
  guidance : ℚ
  wait_for_result : Bool
  deriving DecidableEq

/-- The zod schema of `seedream_generate` in part_000: required prompt,
aspect-ratio enum defaulting to square_1_1, guidance scale bounded to [1,10]
defaulting to 2.5, wait flag defaulting to true. -/
def validateGenArgs (r : GenArgsRaw) : Except String GenArgs :=
  match r.prompt with
  | none => .error "Invalid arguments: prompt is required"
  | some p =>
    match validateEnum aspectEnum "square_1_1" r.aspectR with
    | .error m => .error m
    | .ok ar =>
      match validateBoundedNumber 1 10 2.5 r.guidance with
      | .error m => .error m
      | .ok g => .ok ⟨p, ar, g, r.wait_for_result.getD true⟩

/-- The content-type filter object built by the `search_resources` handler. -/
structure Filters where
  photo : Bool
  vector : Bool
  psd : Bool
  deriving DecidableEq

/-- One vendor HTTP operation, as logged by the embedded handlers. -/
inductive VendorOp where
  | startT2I (prompt : String) (aspectR : String) (guidance : ℚ)
  | statusCheckOp (kind : String) (task_id : String) (attempt : Nat)
  | editStatus (task_id : String)
  | t2iStatus (task_id : String)
  | searchOp (term : String) (limit : ℚ) (order : String) (filters : Option Filters)
  | startA (prompt : Option String) (aspectR : String)
  | statusA (task_id : String) (attempt : Nat)
  | searchA (term : Option String) (limit : ℚ)
  deriving DecidableEq

/-- The `{content: [{type: text, text}], isError?}` tool response, reduced to
its single text and the error flag. -/
structure ToolResponse where
  text : String
  isError : Bool
  deriving DecidableEq

/-- The `seedream_generate` handler of part_000 after validation.
`startResult` is the decoded body of the `client.seedreamTextToImage` call
(the vendor start round-trip), `trace` feeds the poller's status checks. -/
def seedreamGenerateHandler (a : GenArgs) (startResult : TaskResult)
    (trace : Nat → TaskResult) : ToolResponse × List VendorOp :=
  let startOp := VendorOp.startT2I a.prompt a.aspectR a.guidance
  if a.wait_for_result = false then
    ({ text := renderNoWait startResult, isError := false }, [startOp])
  else
    let r := waitForCompletion startResult.task_id trace
    let ops := startOp :: r.1.filterMap (fun e =>
      match e with
      | Ev.check i => some (VendorOp.statusCheckOp "seedream" startResult.task_id i)
      | _ => none)
    match r.2 with
    | .ok t =>
      match t.generated with
      | g :: _ =>
        ({ text := "Image generated successfully!\n\nURL: " ++ g.url, isError := false }, ops)
      | [] => ({ text := renderTaskResult t, isError := false }, ops)
    | .error e =>
      ({ text := "Error: " ++ waitErrMessage e, isError := true }, ops)

/-- The `seedream_generate` tool of part_000: schema validation, then the
handler.  A schema rejection produces an error-tagged response and performs no
vendor operation. -/
def seedreamGenerateTool (raw : GenArgsRaw) (startResult : TaskResult)
    (trace : Nat → TaskResult) : ToolResponse × List VendorOp :=
  match validateGenArgs raw with
  | .error m => ({ text := m, isError := true }, [])
  | .ok a => seedreamGenerateHandler a startResult trace

/-- Raw arguments of `seedream_status`. -/
structure StatusArgsRaw where
  task_id : Option String
  ty : Option String
  deriving DecidableEq

/-- Validated arguments of `seedream_status`. -/
structure StatusArgs where
  task_id : String
  ty : String
  deriving DecidableEq

/-- The type enumeration of `seedream_status` in part_000. -/
def statusEnum : List String := ["text-to-image", "edit"]

/-- The zod schema of `seedream_status`: required task id, type enum
defaulting to text-to-image. -/
def validateStatusArgs (r : StatusArgsRaw) : Except String StatusArgs :=
  match r.task_id with
  | none => .error "Invalid arguments: task_id is required"
  | some tid =>
    match validateEnum statusEnum "text-to-image" r.ty with
    | .error m => .error m
    | .ok ty => .ok ⟨tid, ty⟩

/-- The `seedream_status` handler of part_000: picks the edit or text-to-image
status operation, then formats the completed-with-assets case as the fixed
two-line text and everything else as a JSON dump.  `vendorResult` is the
decoded body returned by the status check. -/
def seedreamStatusHandler (a : StatusArgs) (vendorResult : TaskResult) :
    ToolResponse × List VendorOp :=
  let op := if a.ty = "edit" then VendorOp.editStatus a.task_id
            else VendorOp.t2iStatus a.task_id
  if vendorResult.status = "COMPLETED" then
    match vendorResult.generated with
    | g :: _ =>
      ({ text := "Status: COMPLETED\n\nImage URL: " ++ g.url, isError := false }, [op])
    | [] => ({ text := renderTaskResult vendorResult, isError := false }, [op])
  else ({ text := renderTaskResult vendorResult, isError := false }, [op])

/-- The `seedream_status` tool of part_000: validation, then the handler. -/
def seedreamStatusTool (r : StatusArgsRaw) (vendorResult : TaskResult) :
    ToolResponse × List VendorOp :=
  match validateStatusArgs r with
  | .error m => ({ text := m, isError := true }, [])
  | .ok a => seedreamStatusHandler a vendorResult

/-- A stock resource as read by the `search_resources` handler
(`r.id`, `r.title`, `r.image?.source?.url`, `r.author?.name`). -/
structure RSource where
  url : String
  deriving DecidableEq

/-- The `image` sub-object of a stock resource. -/
structure RImage where
  source : Option RSource
  deriving DecidableEq

/-- The `author` sub-object of a stock resource. -/
structure RAuthor where
  name : String
  deriving DecidableEq

/-- One entry of the vendor search response's `data` array. -/
structure Resource where
  id : Int
  title : String
  image : Option RImage
  author : Option RAuthor
  deriving DecidableEq

/-- The vendor pagination object. -/
structure Pagination where
  total : Int
  deriving DecidableEq

/-- The vendor search response's `meta` object. -/
structure SearchMeta where
  pagination : Pagination
  deriving DecidableEq

/-- The vendor search response as used by the handler. -/
structure SearchResult where
  data : List Resource
  meta : SearchMeta
  deriving DecidableEq

/-- One summarized search entry, with exactly the projected fields
id, title, preview, author (optional ones absent when the source lacked
them, as `JSON.stringify` drops undefined values). -/
structure SummaryEntry where
  id : Int
  title : String
  preview : Option String
  author : Option String
  deriving DecidableEq

/-- The per-entry projection of the `search_resources` handler. -/
def summarize (r : Resource) : SummaryEntry :=
  { id := r.id
    title := r.title
    preview := (r.image.bind (fun im => im.source)).map (fun s => s.url)
    author := r.author.map (fun a => a.name) }

/-- Key-value pairs of one summary entry as `JSON.stringify` emits them. -/
def entryFields (e : SummaryEntry) : List (String × String) :=
  [("id", toString e.id), ("title", jsonEscape e.title)]
    ++ (match e.preview with | some u => [("preview", jsonEscape u)] | none => [])
    ++ (match e.author with | some a => [("author", jsonEscape a)] | none => [])

/-- One summary entry inside `JSON.stringify(summary, null, 2)`. -/
def renderEntry (e : SummaryEntry) : String :=
  match entryFields e with
  | [] => "\x7b\x7d"
  | fs =>
    "\x7b\n"
      ++ String.intercalate ",\n" (fs.map (fun f => "    \"" ++ f.1 ++ "\": " ++ f.2))
      ++ "\n  \x7d"

/-- Rendering of `JSON.stringify(summary, null, 2)`. -/
def renderSummary : List SummaryEntry → String
  | [] => "[]"
  | es => "[\n  " ++ String.intercalate ",\n  " (es.map renderEntry) ++ "\n]"

/-- Raw arguments of `search_resources`. -/
structure SearchArgsRaw where
  term : Option String
  limit : Option ℚ
  order : Option String
  content_type : Option String
  deriving DecidableEq

/-- Validated arguments of `search_resources`. -/
structure SearchArgs where
  term : String
  limit : ℚ
  order : String
  content_type : String
  deriving DecidableEq

/-- The zod schema of `search_resources` in part_000: required term, limit
bounded to [1,200] defaulting to 20, order and content-type enums. -/
def validateSearchArgs (r : SearchArgsRaw) : Except String SearchArgs :=
  match r.term with
  | none => .error "Invalid arguments: term is required"
  | some t =>
    match validateBoundedNumber 1 200 20 r.limit with
    | .error m => .error m
    | .ok l =>
      match validateEnum ["relevance", "recent"] "relevance" r.order with
      | .error m => .error m
      | .ok o =>
        match validateEnum ["photo", "vector", "psd", "all"] "all" r.content_type with
        | .error m => .error m
        | .ok ct => .ok ⟨t, l, o, ct⟩

/-- The `search_resources` handler of part_000 after validation.
`vendorResult` is the decoded body of the vendor search call. -/
def searchResourcesHandler (a : SearchArgs) (vendorResult : SearchResult) :
    ToolResponse × List VendorOp :=
  let filters : Option Filters :=
    if a.content_type ≠ "all" then
      some ⟨a.content_type = "photo", a.content_type = "vector", a.content_type = "psd"⟩
    else none
  let summary := (vendorResult.data.take 10).map summarize
  ({ text := "Found " ++ toString vendorResult.meta.pagination.total
       ++ " results for \"" ++ a.term ++ "\"\n\nTop " ++ toString summary.length
       ++ " results:\n" ++ renderSummary summary,
     isError := false },
   [VendorOp.searchOp a.term a.limit a.order filters])

/-- The `search_resources` tool of part_000: validation, then the handler. -/
def searchResourcesTool (raw : SearchArgsRaw) (vendorResult : SearchResult) :
    ToolResponse × List VendorOp :=
  match validateSearchArgs raw with
  | .error m => ({ text := m, isError := true }, [])
  | .ok a => searchResourcesHandler a vendorResult

/-- One entry of the `generated` array as the server.ts variant-A loop reads
it: the URL is looked up under `url`, `image`, `uri`, then `src`. -/
structure GenA where
  url : Option String
  image : Option String
  uri : Option String
  src : Option String
  deriving DecidableEq

/-- The decoded (and envelope-normalized, `statusResponse.data ||
statusResponse`) body of one status check in the server.ts variant-A loop. -/
structure StatusData where
  status : Option String
  generated : List GenA
  error : Option String
  message : Option String
  deriving DecidableEq

/-- A status body that is not terminal for the server.ts loop. -/
abbrev PendingS (st : StatusData) : Prop :=
  st.status ≠ some "COMPLETED" ∧ st.status ≠ some "FAILED" ∧ st.status ≠ some "ERROR"

/-- How the server.ts variant-A poll loop exited: broke on a completed status,
threw on a failed or errored status, or exhausted its 45 iterations.  The
carried string is the `lastStatus` variable at that point. -/
inductive LoopExit where
  | broke (st : StatusData) (lastStatus : String)
  | thrown (msg : String)
  | exhausted (lastStatus : String)
  deriving DecidableEq

/-- The `error || message || 'Unknown error'` lookup of the loop's throw. -/
def jsErrMsg (st : StatusData) : String :=
  jsOrStr st.error (jsOrStr st.message "Unknown error")

/-- The poll loop body of `seedream_generate` in src/src/server.ts (first
variant, lines 188-211): each iteration waits 2000 ms, fetches the status,
updates `lastStatus`, breaks on COMPLETED with a non-empty `generated`, and
throws on FAILED or ERROR.  `trace i` is the decoded body of the `i`-th
check; the event list records the waits and checks performed. -/
def pollAux (trace : Nat → StatusData) : Nat → Nat → String → List Ev × LoopExit
  | _, 0, last => ([], .exhausted last)
  | i, fuel + 1, _ =>
    let st := trace i
    let last := jsOrStr st.status "UNKNOWN"
    if st.status = some "COMPLETED" ∧ st.generated.length > 0 then
      ([Ev.wait 2000, Ev.check i], .broke st last)
    else if st.status = some "FAILED" ∨ st.status = some "ERROR" then
      ([Ev.wait 2000, Ev.check i], .thrown ("Generation failed: " ++ jsErrMsg st))
    else
      let r := pollAux trace (i + 1) fuel last
      (Ev.wait 2000 :: Ev.check i :: r.1, r.2)

/-- The full variant-A poll loop: 45 iterations, `lastStatus` starting at
UNKNOWN. -/
def pollLoopA (trace : Nat → StatusData) : List Ev × LoopExit :=
  pollAux trace 0 45 "UNKNOWN"

/-- The vendor status checks performed by a variant-A event list. -/
def checkOpsA (tid : String) (evs : List Ev) : List VendorOp :=
  evs.filterMap (fun e =>
    match e with
    | Ev.check i => some (VendorOp.statusA tid i)
    | _ => none)

/-- The status-check operations of `n` consecutive loop iterations starting at
attempt index `i`. -/
def opsFrom (tid : String) (i : Nat) : Nat → List VendorOp
  | 0 => []
  | n + 1 => VendorOp.statusA tid i :: opsFrom tid (i + 1) n

/-- The timeout response text of the variant-A loop (isError true), carrying
the last observed status and the task id. -/
def timeoutTextA (last tid : String) : String :=
  "Timeout after 90 seconds. Last status: " ++ last ++ ". Task ID: " ++ tid
    ++ "\n\nYou can try checking the status later or try again."

/-- The `firstGen.url || firstGen.image || firstGen.uri || firstGen.src`
lookup of the variant-A success path. -/
def imageUrlA (g : GenA) : Option String :=
  jsOrOpt g.url (jsOrOpt g.image (jsOrOpt g.uri g.src))

/-- Key-value pairs of one `generated` entry as `JSON.stringify` emits them
(undefined fields dropped). -/
def genAFields (g : GenA) : List (String × String) :=
  (match g.url with | some u => [("url", jsonEscape u)] | none => [])
    ++ (match g.image with | some u => [("image", jsonEscape u)] | none => [])
    ++ (match g.uri with | some u => [("uri", jsonEscape u)] | none => [])
    ++ (match g.src with | some u => [("src", jsonEscape u)] | none => [])

/-- Rendering of `JSON.stringify(firstGen, null, 2)` for the variant-A
URL-format-unknown response. -/
def renderGenA (g : GenA) : String :=
  match genAFields g with
  | [] => "\x7b\x7d"
  | fs =>
    "\x7b\n"
      ++ String.intercalate ",\n" (fs.map (fun f => "  \"" ++ f.1 ++ "\": " ++ f.2))
      ++ "\n\x7d"

/-- The variant-A response for a first generated entry: the extracted URL when
one of the four fields is truthy, otherwise the raw-data dump. -/
def seedreamRespA (g : GenA) : ToolResponse :=
  match imageUrlA g with
  | some u =>
    { text := "Image generated successfully!\n\nURL: " ++ u
        ++ "\n\nYou can view or download this image directly from the URL above."
      isError := false }
  | none =>
    { text := "Image generated but URL format unknown. Raw data:\n\n" ++ renderGenA g
      isError := false }

/-- A JSON-RPC-level outcome of variant A and part_001: a tool result with its
error flag, or a JSON-RPC error envelope (unknown tool / unknown method). -/
inductive JrpcOut where
  | result (text : String) (isError : Bool)
  | rpcError (code : Int) (msg : String)
  deriving DecidableEq

/-- External inputs of one variant-A `seedream_generate` call: the normalized
start body's `task_id` (absent when the vendor sent none), the compact
`JSON.stringify` of the raw start body (used only in the no-task-id error
text), the status trace of the poll loop, and the rendered body of a search
call (unused by this branch). -/
structure VendorA where
  startTaskId : Option String
  startRaw : String
  trace : Nat → StatusData
  searchRendered : String

/-- The `seedream_generate` branch of src/src/server.ts (first variant):
start the generation, bail out when no task id came back, then run the
45-attempt poll loop and format its exit. -/
def seedreamBranchA (prompt : Option String) (aspectR : String) (v : VendorA) :
    JrpcOut × List VendorOp :=
  match v.startTaskId with
  | none =>
    (.result ("Error: No task_id in response: " ++ v.startRaw) true,
     [VendorOp.startA prompt aspectR])
  | some tid =>
    let r := pollLoopA v.trace
    let ops := VendorOp.startA prompt aspectR :: checkOpsA tid r.1
    match r.2 with
    | .thrown msg => (.result ("Error: Error: " ++ msg) true, ops)
    | .broke st last =>
      (match st.generated with
       | g :: _ => (let tr := seedreamRespA g; JrpcOut.result tr.text tr.isError)
       | [] => .result (timeoutTextA last tid) true, ops)
    | .exhausted last => (.result (timeoutTextA last tid) true, ops)

/-- Raw tool-call arguments of the variant-A and part_001 servers (no schema
validation happens there: fields are read directly off the parsed JSON). -/
structure ArgsA where
  prompt : Option String
  aspectR : Option String
  term : Option String
  limit : Option ℚ

/-- The missing-API-key response text of src/src/server.ts (first variant). -/
def noKeyTextA : String :=
  "Error: No Freepik API key configured. Please add your API key in the MCP configuration."

/-- The `tools/call` dispatch of src/src/server.ts (first variant, lines
125-303): the API-key guard answers before any branch, then the two tools,
then the unknown-tool JSON-RPC error. -/
def toolsCallA (apiKey toolName : String) (args : ArgsA) (v : VendorA) :
    JrpcOut × List VendorOp :=
  if apiKey = "" then (.result noKeyTextA true, [])
  else if toolName = "seedream_generate" then
    seedreamBranchA args.prompt (jsOrStr args.aspectR "square_1_1") v
  else if toolName = "search_resources" then
    (.result v.searchRendered false, [VendorOp.searchA args.term (jsOrQ args.limit 10)])
  else (.rpcError (-32601) ("Unknown tool: " ++ toolName), [])

/-- External inputs of one part_001 tool call: the rendered
`JSON.stringify(data, null, 2)` of the start and search bodies. -/
structure VendorB where
  startRendered : String
  searchRendered : String

/-- The missing-API-key response text of src/unnamed/part_001. -/
def noKeyTextB : String := "Error: No Freepik API key configured"

/-- The `tools/call` dispatch of src/unnamed/part_001 (lines 115-213): the
same API-key guard, a single-fetch `seedream_generate` that dumps the start
body, the same search branch, and the unknown-tool error. -/
def toolsCallB (apiKey toolName : String) (args : ArgsA) (v : VendorB) :
    JrpcOut × List VendorOp :=
  if apiKey = "" then (.result noKeyTextB true, [])
  else if toolName = "seedream_generate" then
    (.result v.startRendered false,
     [VendorOp.startA args.prompt (jsOrStr args.aspectR "square_1_1")])
  else if toolName = "search_resources" then
    (.result v.searchRendered false, [VendorOp.searchA args.term (jsOrQ args.limit 10)])
  else (.rpcError (-32601) ("Unknown tool: " ++ toolName), [])

/-- Outcome of decoding the base64 `config` query parameter: the decode threw
(invalid base64 or invalid JSON), or it yielded an object whose
`freepikApiKey` field is carried (absent when the object lacks it). -/
inductive ConfigDecode where
  | fail
  | ok (freepikApiKey : Option String)
  deriving DecidableEq

/-- The API-key computation of src/src/server.ts lines 43-57 and
src/unnamed/part_001 lines 43-50: start from the environment key (empty
string when unset), and override it only when a config parameter is present,
decodes successfully, and carries a truthy `freepikApiKey`; a decode failure
is swallowed by the empty catch. -/
def computeApiKey (env : String) (cfg : Option ConfigDecode) : String :=
  match cfg with
  | none => env
  | some .fail => env
  | some (.ok none) => env
  | some (.ok (some k)) => if k = "" then env else k

/-- An incoming MCP message, reduced to the method dispatch of the plain HTTP
servers. -/
inductive McpMsg where
  | initReq
  | toolsList
  | toolsCall (toolName : String) (args : ArgsA)
  | other (method : String)

/-- The variant-A response to one MCP message (the fixed init and
tools/list bodies are kept abstract: the claims never inspect them). -/
inductive McpOutA where
  | initResult
  | toolsListResult
  | call (out : JrpcOut × List VendorOp)
  | unknownMethod (method : String)

/-- The POST-message handling of src/src/server.ts (first variant): compute
the API key from the environment and the `config` query parameter, then
dispatch on the method. -/
def handleMessageA (env : String) (cfg : Option ConfigDecode) (msg : McpMsg)
    (v : VendorA) : McpOutA :=
  let apiKey := computeApiKey env cfg
  match msg with
  | .initReq => .initResult
  | .toolsList => .toolsListResult
  | .toolsCall n a => .call (toolsCallA apiKey n a v)
  | .other m => .unknownMethod m

/-- The POST-message handling of src/unnamed/part_001, same structure over
its own tool branches. -/
def handleMessageB (env : String) (cfg : Option ConfigDecode) (msg : McpMsg)
    (v : VendorB) : McpOutA :=
  let apiKey := computeApiKey env cfg
  match msg with
  | .initReq => .initResult
  | .toolsList => .toolsListResult
  | .toolsCall n a => .call (toolsCallB apiKey n a v)
  | .other m => .unknownMethod m

theorem numChecks_blocksFrom (i n : Nat) : numChecks (blocksFrom i n) = n := by
  induction n generalizing i with
  | zero => rfl
  | succ k ih => simp only [blocksFrom, numChecks, ih]

theorem evTotalWait_blocksFrom (i n : Nat) :
    evTotalWait (blocksFrom i n) = 2000 * n := by
  induction n generalizing i with
  | zero => rfl
  | succ k ih =>
    simp only [blocksFrom, evTotalWait, ih]
    ring

theorem checkOpsA_blocksFrom (tid : String) (i n : Nat) :
    checkOpsA tid (blocksFrom i n) = opsFrom tid i n := by
  induction n generalizing i with
  | zero => rfl
  | succ k ih =>
    simp only [checkOpsA] at ih ⊢
    simp [blocksFrom, opsFrom, ih]

theorem length_opsFrom (tid : String) (i n : Nat) :
    (opsFrom tid i n).length = n := by
  induction n generalizing i with
  | zero => rfl
  | succ k ih => simp [opsFrom, ih]

theorem string_ne_of_head_ne (s t u : String) (c d : Char)
    (hs : s.data.head? = some c) (ht : t.data.head? = some d) (hcd : c ≠ d) :
    s ≠ t ++ u := by
  intro h
  have hdata : s.data = t.data ++ u.data := by rw [h, String.data_append]
  obtain ⟨l, hl⟩ : ∃ l, t.data = d :: l := by
    cases htd : t.data with
    | nil => rw [htd] at ht; cases ht
    | cons a l =>
      rw [htd] at ht
      simp only [List.head?] at ht
      exact ⟨l, by rw [← Option.some_inj.mp ht]⟩
  rw [hl] at hdata
  rw [hdata] at hs
  simp only [List.cons_append, List.head?] at hs
  exact hcd (Option.some_inj.mp hs).symm

theorem escapeList_plain (l : List Char)
    (h : ∀ c ∈ l, escChar c = String.singleton c) :
    escapeList l = String.mk l := by
  induction l with
  | nil => rfl
  | cons c cs ih =>
    have h1 := h c (List.mem_cons_self c cs)
    have h2 : ∀ x ∈ cs, escChar x = String.singleton x :=
      fun x hx => h x (List.mem_cons_of_mem _ hx)
    simp only [escapeList, h1, ih h2]
    rfl

theorem jsonEscape_plain (s : String)
    (h : ∀ c ∈ s.data, escChar c = String.singleton c) :
    jsonEscape s = "\"" ++ s ++ "\"" := by
  cases s with
  | mk d =>
    show "\"" ++ escapeList d ++ "\"" = _
    rw [escapeList_plain d h]

theorem waitAux_pending (tid : String) (trace : Nat → TaskResult)
    (h : ∀ j, PendingT (trace j)) :
    ∀ fuel i, waitAux tid trace i fuel =
      (blocksFrom i fuel, .error (.generationTimeout tid)) := by
  intro fuel
  induction fuel with
  | zero => intro i; rfl
  | succ k ih =>
    intro i
    simp only [waitAux, blocksFrom]
    rw [if_neg (h i).1, if_neg (h i).2, ih (i + 1)]

theorem waitAux_completes (tid : String) (trace : Nat → TaskResult) :
    ∀ (m i fuel : Nat), m < fuel →
      (∀ j, j < m → PendingT (trace (i + j))) →
      (trace (i + m)).status = "COMPLETED" →
      waitAux tid trace i fuel = (blocksFrom i (m + 1), .ok (trace (i + m))) := by
  intro m
  induction m with
  | zero =>
    intro i fuel hf hp hc
    match fuel, hf with
    | fuel + 1, _ =>
      simp only [Nat.add_zero] at hc
      simp only [waitAux]
      rw [if_pos hc]
      rfl
  | succ k ih =>
    intro i fuel hf hp hc
    match fuel, hf with
    | fuel + 1, hf =>
      have h1 : PendingT (trace i) := by simpa using hp 0 (Nat.succ_pos k)
      have e : i + (k + 1) = i + 1 + k := by omega
      rw [e] at hc ⊢
      have harg : ∀ j, j < k → PendingT (trace (i + 1 + j)) := by
        intro j hj
        have := hp (j + 1) (by omega)
        rwa [show i + (j + 1) = i + 1 + j by omega] at this
      simp only [waitAux, blocksFrom]
      rw [if_neg h1.1, if_neg h1.2, ih (i + 1) fuel (by omega) harg hc]
      rfl

theorem pollAux_pending (trace : Nat → StatusData)
    (h : ∀ j, PendingS (trace j)) :
    ∀ fuel i last, ∃ l,
      pollAux trace i fuel last = (blocksFrom i fuel, .exhausted l) := by
  intro fuel
  induction fuel with
  | zero => intro i last; exact ⟨last, rfl⟩
  | succ k ih =>
    intro i last
    obtain ⟨h1, h2, h3⟩ := h i
    obtain ⟨l, hl⟩ := ih (i + 1) (jsOrStr (trace i).status "UNKNOWN")
    refine ⟨l, ?_⟩
    simp only [pollAux, blocksFrom]
    rw [if_neg (fun hand => h1 hand.1), if_neg (fun hor => hor.elim h2 h3), hl]

theorem pollAux_completes (trace : Nat → StatusData) :
    ∀ (m i fuel : Nat) (last : String), m < fuel →
      (∀ j, j < m → PendingS (trace (i + j))) →
      (trace (i + m)).status = some "COMPLETED" →
      (trace (i + m)).generated ≠ [] →
      pollAux trace i fuel last =
        (blocksFrom i (m + 1), .broke (trace (i + m)) "COMPLETED") := by
  intro m
  induction m with
  | zero =>
    intro i fuel last hf hp hc hg
    match fuel, hf with
    | fuel + 1, _ =>
      simp only [Nat.add_zero] at hc hg
      simp only [pollAux]
      rw [if_pos ⟨hc, List.length_pos.mpr hg⟩]
      have hlast : jsOrStr (trace i).status "UNKNOWN" = "COMPLETED" := by
        rw [hc]; decide
      rw [hlast]
      rfl
  | succ k ih =>
    intro i fuel last hf hp hc hg
    match fuel, hf with
    | fuel + 1, hf =>
      have h1 : PendingS (trace i) := by simpa using hp 0 (Nat.succ_pos k)
      have e : i + (k + 1) = i + 1 + k := by omega
      rw [e] at hc hg ⊢
      have harg : ∀ j, j < k → PendingS (trace (i + 1 + j)) := by
        intro j hj
        have := hp (j + 1) (by omega)
        rwa [show i + (j + 1) = i + 1 + j by omega] at this
      simp only [pollAux, blocksFrom]
      rw [if_neg (fun hand => h1.1 hand.1),
        if_neg (fun hor => hor.elim h1.2.1 h1.2.2),
        ih (i + 1) fuel _ (by omega) harg hc hg]
      rfl

theorem pollAux_shape (trace : Nat → StatusData) :
    ∀ fuel i last, ∃ n, n ≤ fuel ∧ (0 < fuel → 1 ≤ n) ∧
      (pollAux trace i fuel last).1 = blocksFrom i n := by
  intro fuel
  induction fuel with
  | zero => intro i last; exact ⟨0, le_rfl, by omega, rfl⟩
  | succ k ih =>
    intro i last
    by_cases hc : (trace i).status = some "COMPLETED" ∧ (trace i).generated.length > 0
    · refine ⟨1, by omega, fun _ => le_rfl, ?_⟩
      simp only [pollAux]
      rw [if_pos hc]
      rfl
    · by_cases hf : (trace i).status = some "FAILED" ∨ (trace i).status = some "ERROR"
      · refine ⟨1, by omega, fun _ => le_rfl, ?_⟩
        simp only [pollAux]
        rw [if_neg hc, if_pos hf]
        rfl
      · obtain ⟨n, hn1, _, hn3⟩ := ih (i + 1) (jsOrStr (trace i).status "UNKNOWN")
        refine ⟨n + 1, by omega, fun _ => by omega, ?_⟩
        simp only [pollAux, blocksFrom]
        rw [if_neg hc, if_neg hf]
        simpa using hn3

/-- C1: a task whose status never leaves pending makes the completion poller
perform its status checks at the fixed 2-second interval for exactly the
configured maximum number of attempts (60 by default for the client poller,
45 in the src/src/server.ts loop) and then surface a GenerationTimeout that
carries the task id (the server.ts response text interpolates the task id and
is error-tagged). -/
theorem c1_poller_times_out_after_max_attempts :
    (∀ (tid : String) (trace : Nat → TaskResult) (maxAttempts : Nat),
      (∀ j, PendingT (trace j)) →
      waitForCompletion tid trace maxAttempts =
        (blocksFrom 0 maxAttempts, .error (.generationTimeout tid)) ∧
      numChecks (blocksFrom 0 maxAttempts) = maxAttempts ∧
      evTotalWait (blocksFrom 0 maxAttempts) = 2000 * maxAttempts) ∧
    (∀ (tid : String) (trace : Nat → TaskResult),
      (∀ j, PendingT (trace j)) →
      waitForCompletion tid trace =
        (blocksFrom 0 60, .error (.generationTimeout tid))) ∧
    (∀ (trace : Nat → StatusData) (prompt : Option String)
      (ar sraw sr tid : String),
      (∀ j, PendingS (trace j)) →
      ∃ last, seedreamBranchA prompt ar ⟨some tid, sraw, trace, sr⟩ =
        (.result (timeoutTextA last tid) true,
          VendorOp.startA prompt ar :: opsFrom tid 0 45) ∧
        (opsFrom tid 0 45).length = 45) := by
  refine ⟨fun tid trace n h =>
      ⟨waitAux_pending tid trace h n 0, numChecks_blocksFrom 0 n,
        evTotalWait_blocksFrom 0 n⟩,
    fun tid trace h => waitAux_pending tid trace h 60 0,
    fun trace prompt ar sraw sr tid h => ?_⟩
  obtain ⟨l, hl⟩ := pollAux_pending trace h 45 0 "UNKNOWN"
  refine ⟨l, ?_, length_opsFrom tid 0 45⟩
  simp only [seedreamBranchA, pollLoopA, hl, checkOpsA_blocksFrom]

/-- Concrete always-pending client trace, used by the C1 witness. -/
def pendingTraceT : Nat → TaskResult := fun _ => ⟨"task-1", "IN_PROGRESS", []⟩

/-- Witness for C1: the concrete always-pending trace satisfies the pending
hypothesis and times out with the task id after exactly the given attempts. -/
theorem c1_witness :
    (∀ j, PendingT (pendingTraceT j)) ∧
    waitForCompletion "task-1" pendingTraceT 3 =
      (blocksFrom 0 3, .error (.generationTimeout "task-1")) := by
  have hp : ∀ j, PendingT (pendingTraceT j) := fun _ =>
    (by decide : PendingT ⟨"task-1", "IN_PROGRESS", []⟩)
  exact ⟨hp, (c1_poller_times_out_after_max_attempts.1 "task-1" pendingTraceT 3 hp).1⟩

/-- C2: a task that first completes on attempt m+1, within the configured
maximum, makes the poller return exactly that task's result after exactly m+1
status checks, each preceded by its own fixed 2000 ms wait and with no check
after the terminal one; for both the client poller and the src/src/server.ts
loop (which also requires the completed status to carry assets). -/
theorem c2_poller_returns_at_completion :
    (∀ (tid : String) (trace : Nat → TaskResult) (m maxAttempts : Nat),
      m < maxAttempts →
      (∀ j, j < m → PendingT (trace j)) →
      (trace m).status = "COMPLETED" →
      waitForCompletion tid trace maxAttempts =
        (blocksFrom 0 (m + 1), .ok (trace m)) ∧
      numChecks (blocksFrom 0 (m + 1)) = m + 1) ∧
    (∀ (trace : Nat → StatusData) (m : Nat), m < 45 →
      (∀ j, j < m → PendingS (trace j)) →
      (trace m).status = some "COMPLETED" →
      (trace m).generated ≠ [] →
      pollLoopA trace = (blocksFrom 0 (m + 1), .broke (trace m) "COMPLETED")) := by
  constructor
  · intro tid trace m maxA hm hp hc
    have h := waitAux_completes tid trace m 0 maxA hm
      (by simpa using hp) (by simpa using hc)
    exact ⟨by simpa using h, numChecks_blocksFrom 0 (m + 1)⟩
  · intro trace m hm hp hc hg
    have h := pollAux_completes trace m 0 45 "UNKNOWN" hm
      (by simpa using hp) (by simpa using hc) (by simpa using hg)
    simpa [pollLoopA] using h

/-- Concrete immediately-completing client trace, used by the C2 witness. -/
def completedTraceT : Nat → TaskResult :=
  fun _ => ⟨"task-1", "COMPLETED", [⟨"https://img"⟩]⟩

/-- Witness for C2: a trace completing on the first attempt is returned after
exactly one check. -/
theorem c2_witness :
    (completedTraceT 0).status = "COMPLETED" ∧
    waitForCompletion "task-1" completedTraceT 60 =
      (blocksFrom 0 1, .ok (completedTraceT 0)) := by
  refine ⟨by decide, ?_⟩
  exact (c2_poller_returns_at_completion.1 "task-1" completedTraceT 0 60
    (by omega) (fun j hj => absurd hj (by omega)) (by decide)).1

/-- C9: in the src/src/server.ts loop the 2000 ms wait precedes every status
check — the loop's event list always consists of consecutive wait-then-check
blocks — so a task already completed at the first check is still answered
only after one full interval has elapsed. -/
theorem c9_wait_precedes_every_check :
    (∀ trace : Nat → StatusData, ∃ n, 1 ≤ n ∧ n ≤ 45 ∧
      (pollLoopA trace).1 = blocksFrom 0 n) ∧
    (∀ trace : Nat → StatusData,
      (trace 0).status = some "COMPLETED" → (trace 0).generated ≠ [] →
      pollLoopA trace = (blocksFrom 0 1, .broke (trace 0) "COMPLETED") ∧
      evTotalWait (blocksFrom 0 1) = 2000) := by
  constructor
  · intro trace
    obtain ⟨n, h1, h2, h3⟩ := pollAux_shape trace 45 0 "UNKNOWN"
    exact ⟨n, h2 (by omega), h1, h3⟩
  · intro trace hc hg
    have h := pollAux_completes trace 0 0 45 "UNKNOWN" (by omega)
      (fun j hj => absurd hj (by omega)) (by simpa using hc) (by simpa using hg)
    exact ⟨by simpa [pollLoopA] using h, rfl⟩

/-- Concrete immediately-completing server trace, used by the C9 witness. -/
def completedTraceS : Nat → StatusData :=
  fun _ => ⟨some "COMPLETED", [⟨some "https://img", none, none, none⟩], none, none⟩

/-- Witness for C9: the loop on an immediately-completed trace still performs
one full wait before its single check. -/
theorem c9_witness :
    (completedTraceS 0).status = some "COMPLETED" ∧
    pollLoopA completedTraceS = (blocksFrom 0 1, .broke (completedTraceS 0) "COMPLETED") := by
  refine ⟨by decide, ?_⟩
  exact (c9_wait_precedes_every_check.2 completedTraceS (by decide) (by decide)).1

/-- C3 (amended): with wait_for_result true and valid arguments, the
seedream_generate tool of part_000 returns exactly one of three outcomes — a
non-error response carrying the first generated asset's URL, a non-error
JSON dump of the poller's completed task when that task carries no generated
assets, or an error-tagged response built from a GenerationFailed or
GenerationTimeout poller error.  The handler is a total function, so no
input produces an unhandled fault. -/
theorem c3_wait_branch_trichotomy (raw : GenArgsRaw) (a : GenArgs)
    (s : TaskResult) (trace : Nat → TaskResult)
    (hv : validateGenArgs raw = .ok a) (hw : a.wait_for_result = true) :
    (∃ u, (seedreamGenerateTool raw s trace).1 =
      { text := "Image generated successfully!\n\nURL: " ++ u, isError := false }) ∨
    (∃ t, (waitForCompletion s.task_id trace).2 = .ok t ∧ t.generated = [] ∧
      (seedreamGenerateTool raw s trace).1 =
        { text := renderTaskResult t, isError := false }) ∨
    (∃ e, (waitForCompletion s.task_id trace).2 = .error e ∧
      (seedreamGenerateTool raw s trace).1 =
        { text := "Error: " ++ waitErrMessage e, isError := true }) := by
  rcases hr : (waitForCompletion s.task_id trace).2 with e | t
  · refine Or.inr (Or.inr ⟨e, rfl, ?_⟩)
    simp only [seedreamGenerateTool, hv, seedreamGenerateHandler, hw]
    simp [hr]
  · rcases hg : t.generated with _ | ⟨g, rest⟩
    · refine Or.inr (Or.inl ⟨t, rfl, hg, ?_⟩)
      simp only [seedreamGenerateTool, hv, seedreamGenerateHandler, hw]
      simp [hr, hg]
    · refine Or.inl ⟨g.url, ?_⟩
      simp only [seedreamGenerateTool, hv, seedreamGenerateHandler, hw]
      simp [hr, hg]

/-- Concrete arguments for C3: wait_for_result defaults to true. -/
def c3raw : GenArgsRaw := ⟨some "a sunset", none, none, some true⟩

/-- Concrete start-call result for C3. -/
def c3start : TaskResult := ⟨"t1", "IN_PROGRESS", []⟩

/-- Concrete status trace for the C3 counterexample: the first check reports
COMPLETED with an empty generated list. -/
def c3trace : Nat → TaskResult := fun _ => ⟨"t1", "COMPLETED", []⟩

/-- Counterexample to C3 as stated: at these inputs the wait branch returns a
response that is not error-tagged and whose text is not the asset-URL
success message for any URL (it is the JSON dump of a completed task whose
generated list is empty, so no generated-asset URL exists at all). -/
theorem c3_counterexample :
    (seedreamGenerateTool c3raw c3start c3trace).1.isError = false ∧
    ∀ u : String, (seedreamGenerateTool c3raw c3start c3trace).1.text ≠
      "Image generated successfully!\n\nURL: " ++ u := by
  constructor
  · rfl
  · intro u
    apply string_ne_of_head_ne _ _ u (Char.ofNat 123) (Char.ofNat 73)
    · decide
    · decide
    · decide

/-- Validated form of the C3 witness arguments. -/
def c3args : GenArgs := ⟨"a sunset", "square_1_1", 2.5, true⟩

/-- Witness for the amended C3 at a trace that completes with an asset. -/
theorem c3_witness :
    validateGenArgs c3raw = .ok c3args ∧
    ((∃ u, (seedreamGenerateTool c3raw c3start completedTraceT).1 =
        { text := "Image generated successfully!\n\nURL: " ++ u, isError := false }) ∨
      (∃ t, (waitForCompletion c3start.task_id completedTraceT).2 = .ok t ∧
        t.generated = [] ∧ (seedreamGenerateTool c3raw c3start completedTraceT).1 =
          { text := renderTaskResult t, isError := false }) ∨
      (∃ e, (waitForCompletion c3start.task_id completedTraceT).2 = .error e ∧
        (seedreamGenerateTool c3raw c3start completedTraceT).1 =
          { text := "Error: " ++ waitErrMessage e, isError := true })) :=
  ⟨rfl, c3_wait_branch_trichotomy c3raw c3args c3start completedTraceT rfl rfl⟩

/-- C4: with wait_for_result false and valid arguments, the generate tool of
part_000 performs exactly the single vendor start round-trip, never performs
a status check (so the poller is not invoked), and its response is the
non-error JSON dump whose text carries the task id returned by the start
call (shown for task ids needing no JSON escaping). -/
theorem c4_no_wait_single_roundtrip (raw : GenArgsRaw) (a : GenArgs)
    (s : TaskResult) (trace : Nat → TaskResult)
    (hv : validateGenArgs raw = .ok a) (hw : a.wait_for_result = false)
    (hplain : ∀ c ∈ s.task_id.data, escChar c = String.singleton c) :
    seedreamGenerateTool raw s trace =
      ({ text := renderNoWait s, isError := false },
        [VendorOp.startT2I a.prompt a.aspectR a.guidance]) ∧
    (∀ op ∈ (seedreamGenerateTool raw s trace).2,
      ∀ kind tid i, op ≠ VendorOp.statusCheckOp kind tid i) ∧
    (∃ p q, renderNoWait s = p ++ s.task_id ++ q) := by
  have h1 : seedreamGenerateTool raw s trace =
      ({ text := renderNoWait s, isError := false },
        [VendorOp.startT2I a.prompt a.aspectR a.guidance]) := by
    simp only [seedreamGenerateTool, hv, seedreamGenerateHandler, hw]
    simp
  refine ⟨h1, ?_, ?_⟩
  · intro op hop kind tid i
    rw [h1] at hop
    simp only [List.mem_singleton] at hop
    subst hop
    simp
  · refine ⟨"\x7b\n  \"task_id\": " ++ "\"",
      "\"" ++ (",\n  \"status\": " ++ jsonEscape s.status
        ++ ",\n  \"message\": \"Generation started. Use seedream_status to check progress.\"\n\x7d"), ?_⟩
    rw [renderNoWait, jsonEscape_plain s.task_id hplain]
    simp only [String.append_assoc]

/-- Concrete no-wait arguments for the C4 witness. -/
def c4raw : GenArgsRaw := ⟨some "a sunset", none, none, some false⟩

/-- Validated form of the C4 witness arguments. -/
def c4args : GenArgs := ⟨"a sunset", "square_1_1", 2.5, false⟩

/-- Witness for C4 at concrete inputs. -/
theorem c4_witness :
    validateGenArgs c4raw = .ok c4args ∧
    seedreamGenerateTool c4raw c3start pendingTraceT =
      ({ text := renderNoWait c3start, isError := false },
        [VendorOp.startT2I "a sunset" "square_1_1" 2.5]) :=
  ⟨rfl, (c4_no_wait_single_roundtrip c4raw c4args c3start pendingTraceT rfl rfl
    (by decide)).1⟩

/-- C5: the part_000 zod schemas reject guidance_scale outside [1,10] and
limit outside [1,200] with a validation error before any vendor operation is
performed, and apply the defaults 2.5 and 20 when the fields are omitted. -/
theorem c5_schema_bounds_and_defaults :
    (∀ g : ℚ, g < 1 ∨ 10 < g →
      ∀ (raw : GenArgsRaw) (s : TaskResult) (trace : Nat → TaskResult),
      raw.guidance = some g →
      (∃ m, validateGenArgs raw = .error m) ∧
      (seedreamGenerateTool raw s trace).2 = []) ∧
    (∀ l : ℚ, l < 1 ∨ 200 < l →
      ∀ (raw : SearchArgsRaw) (vr : SearchResult),
      raw.limit = some l →
      (∃ m, validateSearchArgs raw = .error m) ∧
      (searchResourcesTool raw vr).2 = []) ∧
    validateBoundedNumber 1 10 2.5 none = .ok 2.5 ∧
    validateBoundedNumber 1 200 20 none = .ok 20 ∧
    (∀ raw : GenArgsRaw, raw.guidance = none →
      ∀ a, validateGenArgs raw = .ok a → a.guidance = 2.5) ∧
    (∀ raw : SearchArgsRaw, raw.limit = none →
      ∀ a, validateSearchArgs raw = .ok a → a.limit = 20) := by
  refine ⟨?_, ?_, rfl, rfl, ?_, ?_⟩
  · intro g hg raw s trace hraw
    have hng : ¬(1 ≤ g ∧ g ≤ 10) := by
      rcases hg with h | h
      · exact fun hh => absurd hh.1 (by linarith)
      · exact fun hh => absurd hh.2 (by linarith)
    have hb : validateBoundedNumber 1 10 2.5 raw.guidance = .error "Number out of bounds" := by
      rw [hraw]
      simp [validateBoundedNumber, hng]
    have hE : ∃ m, validateGenArgs raw = .error m := by
      cases hp : raw.prompt with
      | none =>
        exact ⟨"Invalid arguments: prompt is required", by simp [validateGenArgs, hp]⟩
      | some p =>
        cases he : validateEnum aspectEnum "square_1_1" raw.aspectR with
        | error m => exact ⟨m, by simp [validateGenArgs, hp, he]⟩
        | ok ar =>
          exact ⟨"Number out of bounds", by simp [validateGenArgs, hp, he, hb]⟩
    obtain ⟨m, hm⟩ := hE
    exact ⟨⟨m, hm⟩, by simp [seedreamGenerateTool, hm]⟩
  · intro l hl raw vr hraw
    have hnl : ¬(1 ≤ l ∧ l ≤ 200) := by
      rcases hl with h | h
      · exact fun hh => absurd hh.1 (by linarith)
      · exact fun hh => absurd hh.2 (by linarith)
    have hb : validateBoundedNumber 1 200 20 raw.limit = .error "Number out of bounds" := by
      rw [hraw]
      simp [validateBoundedNumber, hnl]
    have hE : ∃ m, validateSearchArgs raw = .error m := by
      cases ht : raw.term with
      | none =>
        exact ⟨"Invalid arguments: term is required", by simp [validateSearchArgs, ht]⟩
      | some t =>
        exact ⟨"Number out of bounds", by simp [validateSearchArgs, ht, hb]⟩
    obtain ⟨m, hm⟩ := hE
    exact ⟨⟨m, hm⟩, by simp [searchResourcesTool, hm]⟩
  · intro raw hnone a ha
    cases hp : raw.prompt with
    | none => simp [validateGenArgs, hp] at ha
    | some p =>
      cases he : validateEnum aspectEnum "square_1_1" raw.aspectR with
      | error m => simp [validateGenArgs, hp, he] at ha
      | ok ar =>
        simp [validateGenArgs, hp, he, hnone, validateBoundedNumber] at ha
        rw [← ha]
  · intro raw hnone a ha
    cases ht : raw.term with
    | none => simp [validateSearchArgs, ht] at ha
    | some t =>
      cases ho : validateEnum ["relevance", "recent"] "relevance" raw.order with
      | error m => simp [validateSearchArgs, ht, hnone, validateBoundedNumber, ho] at ha
      | ok o =>
        cases hc : validateEnum ["photo", "vector", "psd", "all"] "all" raw.content_type with
        | error m => simp [validateSearchArgs, ht, hnone, validateBoundedNumber, ho, hc] at ha
        | ok ct =>
          simp [validateSearchArgs, ht, hnone, validateBoundedNumber, ho, hc] at ha
          rw [← ha]

/-- Witness for C5: guidance 0 and limit 300 are rejected with no vendor
operation. -/
theorem c5_witness :
    ((0 : ℚ) < 1 ∨ 10 < (0 : ℚ)) ∧
    (∃ m, validateGenArgs ⟨some "p", none, some 0, none⟩ = .error m) ∧
    (seedreamGenerateTool ⟨some "p", none, some 0, none⟩ c3start pendingTraceT).2 = [] ∧
    (∃ m, validateSearchArgs ⟨some "cats", some 300, none, none⟩ = .error m) := by
  have h1 := c5_schema_bounds_and_defaults.1 0 (Or.inl (by norm_num))
    ⟨some "p", none, some 0, none⟩ c3start pendingTraceT rfl
  have h2 := c5_schema_bounds_and_defaults.2.1 300 (Or.inr (by norm_num))
    ⟨some "cats", some 300, none, none⟩ ⟨[], ⟨⟨0⟩⟩⟩ rfl
  exact ⟨Or.inl (by norm_num), h1.1, h1.2, h2.1⟩

/-- C6: with no API key from the environment and none from the session
config, the tools/call guard of both plain HTTP servers answers every tool
call with the error-tagged configuration-error text and performs no vendor
operation. -/
theorem c6_missing_api_key_no_vendor_call :
    (∀ (toolName : String) (args : ArgsA) (v : VendorA),
      toolsCallA "" toolName args v = (.result noKeyTextA true, [])) ∧
    (∀ (toolName : String) (args : ArgsA) (v : VendorB),
      toolsCallB "" toolName args v = (.result noKeyTextB true, [])) ∧
    computeApiKey "" none = "" ∧
    computeApiKey "" (some .fail) = "" ∧
    computeApiKey "" (some (.ok none)) = "" ∧
    computeApiKey "" (some (.ok (some ""))) = "" ∧
    (∀ cfg, computeApiKey "" cfg = "" →
      ∀ (toolName : String) (args : ArgsA) (v : VendorA),
        handleMessageA "" cfg (.toolsCall toolName args) v =
          .call (.result noKeyTextA true, [])) := by
  refine ⟨fun n a v => by simp [toolsCallA], fun n a v => by simp [toolsCallB],
    rfl, rfl, rfl, rfl, fun cfg hk n a v => ?_⟩
  simp [handleMessageA, hk, toolsCallA]

/-- Concrete always-pending server trace, used by the C6 witness vendor. -/
def pendingTraceS : Nat → StatusData := fun _ => ⟨some "IN_PROGRESS", [], none, none⟩

/-- Witness for C6: a session whose config parameter failed to decode and
whose environment key is empty answers a tool call with the
configuration-error response and performs no vendor operation. -/
theorem c6_witness :
    computeApiKey "" (some .fail) = "" ∧
    handleMessageA "" (some .fail)
      (.toolsCall "seedream_generate" ⟨some "a sunset", none, none, none⟩)
      ⟨some "t1", "", pendingTraceS, ""⟩ = .call (.result noKeyTextA true, []) :=
  ⟨rfl, c6_missing_api_key_no_vendor_call.2.2.2.2.2.2 (some .fail) rfl
    "seedream_generate" ⟨some "a sunset", none, none, none⟩
    ⟨some "t1", "", pendingTraceS, ""⟩⟩

/-- C7: a status call of type edit whose vendor result is COMPLETED with a
first generated url U answers exactly the text
"Status: COMPLETED\n\nImage URL: " followed by U, via the edit status-check
operation. -/
theorem c7_status_edit_completed_text (raw : StatusArgsRaw) (tid U : String)
    (rest : List GeneratedAsset) (vr : TaskResult)
    (hv : validateStatusArgs raw = .ok ⟨tid, "edit"⟩)
    (hs : vr.status = "COMPLETED") (hg : vr.generated = ⟨U⟩ :: rest) :
    seedreamStatusTool raw vr =
      ({ text := "Status: COMPLETED\n\nImage URL: " ++ U, isError := false },
        [VendorOp.editStatus tid]) := by
  simp only [seedreamStatusTool, hv, seedreamStatusHandler]
  simp [hs, hg]

/-- Witness for C7 at the spec's example inputs. -/
theorem c7_witness :
    validateStatusArgs ⟨some "abc123", some "edit"⟩ = .ok ⟨"abc123", "edit"⟩ ∧
    seedreamStatusTool ⟨some "abc123", some "edit"⟩
        ⟨"abc123", "COMPLETED", [⟨"https://x/y.png"⟩]⟩ =
      ({ text := "Status: COMPLETED\n\nImage URL: https://x/y.png", isError := false },
        [VendorOp.editStatus "abc123"]) := by
  refine ⟨rfl, ?_⟩
  have h := c7_status_edit_completed_text ⟨some "abc123", some "edit"⟩ "abc123"
    "https://x/y.png" [] ⟨"abc123", "COMPLETED", [⟨"https://x/y.png"⟩]⟩ rfl rfl rfl
  have e : ("Status: COMPLETED\n\nImage URL: https://x/y.png" : String) =
      "Status: COMPLETED\n\nImage URL: " ++ "https://x/y.png" := by decide
  rw [e]
  exact h

/-- C8: a successful search_resources call answers non-error text containing
"Found <total> results" for the vendor-reported total, followed by the JSON
array of the summarized entries: at most 10 of them, never more than the
vendor returned, each the projection of a vendor entry to exactly the fields
id, title, preview, author. -/
theorem c8_search_found_results_format (raw : SearchArgsRaw) (a : SearchArgs)
    (vr : SearchResult) (hv : validateSearchArgs raw = .ok a) :
    (searchResourcesTool raw vr).1.text =
      "Found " ++ toString vr.meta.pagination.total ++ " results for \"" ++ a.term
        ++ "\"\n\nTop " ++ toString ((vr.data.take 10).map summarize).length
        ++ " results:\n" ++ renderSummary ((vr.data.take 10).map summarize) ∧
    (searchResourcesTool raw vr).1.isError = false ∧
    ((vr.data.take 10).map summarize).length ≤ 10 ∧
    ((vr.data.take 10).map summarize).length ≤ vr.data.length ∧
    (∃ p q, (searchResourcesTool raw vr).1.text =
      p ++ ("Found " ++ toString vr.meta.pagination.total ++ " results") ++ q) := by
  have h1 : searchResourcesTool raw vr = searchResourcesHandler a vr := by
    simp [searchResourcesTool, hv]
  refine ⟨by rw [h1]; rfl, by rw [h1]; rfl, ?_, ?_, ?_⟩
  · simp [List.length_take]
  · simp [List.length_take]
  · refine ⟨"", " for \"" ++ (a.term ++ ("\"\n\nTop "
      ++ (toString ((vr.data.take 10).map summarize).length
        ++ (" results:\n" ++ renderSummary ((vr.data.take 10).map summarize))))), ?_⟩
    rw [h1]
    show "Found " ++ toString vr.meta.pagination.total ++ " results for \"" ++ a.term
        ++ "\"\n\nTop " ++ toString ((vr.data.take 10).map summarize).length
        ++ " results:\n" ++ renderSummary ((vr.data.take 10).map summarize) = _
    rw [show (" results for \"" : String) = " results" ++ " for \"" by decide]
    simp only [String.append_assoc, String.empty_append]

/-- Concrete vendor search response for the C8 witness: 42 total matches,
five returned entries. -/
def c8vendor : SearchResult :=
  ⟨[⟨1, "a", none, none⟩, ⟨2, "b", none, none⟩, ⟨3, "c", none, none⟩,
    ⟨4, "d", none, none⟩, ⟨5, "e", none, none⟩], ⟨⟨42⟩⟩⟩

/-- Witness for C8 at the spec's example: term sunset, limit 5, 42 total. -/
theorem c8_witness :
    validateSearchArgs ⟨some "sunset", some 5, none, none⟩ =
      .ok ⟨"sunset", 5, "relevance", "all"⟩ ∧
    (searchResourcesTool ⟨some "sunset", some 5, none, none⟩ c8vendor).1.isError = false ∧
    ((c8vendor.data.take 10).map summarize).length ≤ 10 ∧
    ((c8vendor.data.take 10).map summarize).length ≤ c8vendor.data.length := by
  have h := c8_search_found_results_format ⟨some "sunset", some 5, none, none⟩
    ⟨"sunset", 5, "relevance", "all"⟩ c8vendor rfl
  exact ⟨rfl, h.2.1, h.2.2.1, h.2.2.2.1⟩

/-- C10: a config query parameter that fails to decode, or decodes to an
object without a freepikApiKey field, is silently swallowed: the API key
stays the environment one and the whole message handling of both plain HTTP
servers behaves exactly as if no config parameter had been passed — a
malformed config parameter alone never produces an error response. -/
theorem c10_malformed_config_ignored :
    (∀ env, computeApiKey env (some .fail) = env) ∧
    (∀ env, computeApiKey env (some (.ok none)) = env) ∧
    (∀ env msg v, handleMessageA env (some .fail) msg v = handleMessageA env none msg v) ∧
    (∀ env msg v, handleMessageA env (some (.ok none)) msg v = handleMessageA env none msg v) ∧
    (∀ env msg v, handleMessageB env (some .fail) msg v = handleMessageB env none msg v) ∧
    (∀ env msg v, handleMessageB env (some (.ok none)) msg v = handleMessageB env none msg v) :=
  ⟨fun _ => rfl, fun _ => rfl, fun _ _ _ => rfl, fun _ _ _ => rfl,
    fun _ _ _ => rfl, fun _ _ _ => rfl⟩

end FreepikMcp
